import Mathlib

/-!
Shallow embedding of the Bluesky publishing pipeline
(`packages/skin-database/tasks/bluesky.ts`) and of the reference-counted
global mouse listener (`packages/webamp/js/hooks.ts`), with theorems that
check the natural-language specification against the code.

External network calls (store selection, skin lookup, screenshot fetch,
login, blob upload, post submission, store write, chat channel fetch and
send) are modelled by a `World` record that fixes each call's result for
one run; the embedded functions return their result together with the
ordered list of external effects they issued.
-/

namespace Webamp

namespace Bluesky

/-- UTF-16 code-unit length of a string: this is what JavaScript
`String.prototype.length` returns (`name.length` in the source). Code points
below `0x10000` take one UTF-16 code unit, the rest take two. -/
def utf16Length (s : String) : Nat :=
  s.data.foldl (fun n c => n + (if c.toNat < 0x10000 then 1 else 2)) 0

/-- UTF-8 encoding of one character, as byte values. -/
def utf8Encode (c : Char) : List Nat :=
  let n := c.toNat
  if n < 0x80 then [n]
  else if n < 0x800 then
    [0xC0 ||| (n >>> 6), 0x80 ||| (n &&& 0x3F)]
  else if n < 0x10000 then
    [0xE0 ||| (n >>> 12), 0x80 ||| ((n >>> 6) &&& 0x3F), 0x80 ||| (n &&& 0x3F)]
  else
    [0xF0 ||| (n >>> 18), 0x80 ||| ((n >>> 12) &&& 0x3F),
     0x80 ||| ((n >>> 6) &&& 0x3F), 0x80 ||| (n &&& 0x3F)]

/-- UTF-8 byte sequence of a string. -/
def utf8Bytes (s : String) : List Nat :=
  s.data.foldr (fun c acc => utf8Encode c ++ acc) []

/-- A decoded raster image: pixel dimensions plus row-major pixel data.
`sharp(screenshot).metadata()` reads `width`/`height` from such an image. -/
structure RawImage where
  width : Nat
  height : Nat
  pixels : List Nat
deriving DecidableEq, Repr

/-- Modelled from the spec: the `sharp` resize primitive itself is a
third-party library, not part of this repository. Per the spec (§4.1 and
§3 MediaAsset) it deterministically rescales the raster to the requested
target dimensions with a nearest-neighbor resampling kernel: output pixel
`(x, y)` is the input pixel at `(x * srcW / dstW, y * srcH / dstH)`. -/
def nearestResize (img : RawImage) (w h : Nat) : RawImage :=
  { width := w
    height := h
    pixels := (List.range (h * w)).map fun i =>
      let y := i / w
      let x := i % w
      img.pixels.getD ((y * img.height / h) * img.width + x * img.width / w) 0 }

/-- `sharp(screenshot).resize(width * 2, height * 2, { kernel: sharp.kernel.nearest })`:
the code requests exactly doubled dimensions and the nearest-neighbor kernel. -/
def transformImage (img : RawImage) : RawImage :=
  nearestResize img (img.width * 2) (img.height * 2)

/-- Opaque blob handle returned by `agent.uploadBlob` (`dstResp.data.blob`). -/
structure BlobRef where
  ref : Nat
deriving DecidableEq, Repr

/-- `index: { byteStart, byteEnd }` of a rich-text facet. -/
structure FacetIndex where
  byteStart : Nat
  byteEnd : Nat
deriving DecidableEq, Repr

/-- One entry of a facet's `features` array (here always a `#link`). -/
structure FacetFeature where
  type : String
  uri : String
deriving DecidableEq, Repr

/-- One rich-text facet (`AppBskyRichtextFacet.Main`). -/
structure Facet where
  type : String
  index : FacetIndex
  features : List FacetFeature
deriving DecidableEq, Repr

/-- `aspectRatio: { width, height }` of an embedded image. -/
structure AspectRatio where
  width : Nat
  height : Nat
deriving DecidableEq, Repr

/-- One entry of the `images` array: `{ image, aspectRatio, alt }`. -/
structure ImageEntry where
  image : BlobRef
  aspectRatio : AspectRatio
  alt : String
deriving DecidableEq, Repr

/-- A value stored under a key of the embed object. -/
inductive EmbedVal where
  | str (s : String)
  | images (entries : List ImageEntry)
deriving DecidableEq, Repr

/-- A JavaScript object as an ordered key/value list (insertion order). -/
abbrev JsObj := List (String × EmbedVal)

/-- JavaScript object-literal key assignment: assigning an existing key
overwrites its value in place, a new key is appended. -/
def jsSet (o : JsObj) (k : String) (v : EmbedVal) : JsObj :=
  if o.any (fun p => p.1 == k) then
    o.map (fun p => if p.1 == k then (k, v) else p)
  else o ++ [(k, v)]

/-- JavaScript spread `{ ...o, ...src }`: assign every key of `src` into `o`
in order, later assignments overwriting earlier ones. -/
def jsSpread (o : JsObj) (src : JsObj) : JsObj :=
  src.foldl (fun acc p => jsSet acc p.1 p.2) o

/-- Key lookup on a JavaScript object. -/
def jsGet (o : JsObj) (k : String) : Option EmbedVal :=
  (o.find? (fun p => p.1 == k)).map Prod.snd

/-- `buildImageEmbed(imgBlob, width, height)`: the embed data for an image. -/
def buildImageEmbed (imgBlob : BlobRef) (width height : Nat) : JsObj :=
  let image : ImageEntry :=
    { image := imgBlob, aspectRatio := { width := width, height := height }, alt := "" }
  [("$type", EmbedVal.str "app.bsky.embed.images"),
   ("images", EmbedVal.images [image])]

/-- The composed post record (`AppBskyFeedPost.Record`). -/
structure PostRecord where
  text : String
  facets : List Facet
  type : String
  createdAt : String
  embed : JsObj
deriving DecidableEq, Repr

/-- `buildPost(text, facets, imageEmbed)`: the embed field is the object
literal `{ $type: "app.bsky.embed.recordWithMedia", ...imageEmbed }`, i.e.
the spread of `imageEmbed` assigned over the `$type` key. `createdAt` is
`new Date().toISOString()`, supplied here as the run's clock value. -/
def buildPost (text : String) (facets : List Facet) (imageEmbed : JsObj)
    (now : String) : PostRecord :=
  { text := text
    facets := facets
    type := "app.bsky.feed.post"
    createdAt := now
    embed := jsSpread [("$type", EmbedVal.str "app.bsky.embed.recordWithMedia")] imageEmbed }

/-- The skin record fields the pipeline reads (`SkinModel`). -/
structure Skin where
  fileName : String
  museumUrl : String
  screenshotFileName : String
deriving DecidableEq, Repr

/-- The envelope returned by `agent.uploadBlob`: a success flag and the
blob descriptor. -/
structure UploadResp where
  success : Bool
  blob : BlobRef
deriving DecidableEq, Repr

/-- The response of `agent.post`: content id and canonical url. -/
structure PostResp where
  cid : String
  uri : String
deriving DecidableEq, Repr

/-- Failure causes of the external calls (spec §7 taxonomy). -/
inductive Err where
  | skinLookup
  | mediaDecode
  | auth
  | transport
  | upload
  | submission
  | recording
  | channelFetch
  | notify
deriving DecidableEq, Repr

/-- One run's external world: the result each external call would return.
Capturing them up front makes the embedded pipeline a pure function of the
world while preserving the order in which the code issues the calls. -/
structure World where
  pickResult : Option String
  skin : Except Err Skin
  screenshot : Except Err RawImage
  loginResult : Except Err Unit
  uploadResult : Except Err UploadResp
  submitResult : Except Err PostResp
  recordResult : Except Err Unit
  channelResult : Except Err Unit
  sendResult : Except Err Unit
  now : String

/-- The externally observable effects, in the order the code issues them. -/
inductive Event where
  | pick
  | fetchSkin (md5 : String)
  | fetchScreenshot (md5 : String)
  | login
  | uploadBlob (bytes : List Nat)
  | submitPost (data : PostRecord)
  | markPublished (md5 postId postUrl : String)
  | consoleError (msg : String)
  | consoleLog (msg : String)
  | fetchChannel
  | sendDiscord (url : String)
deriving DecidableEq, Repr

/-- `uploadImageFromFilePath`: issues `agent.uploadBlob` on the file's bytes
(the temp file holds exactly the transformed buffer), throws
`"Failed to upload image"` when the envelope's `success` flag is not set,
and returns `dstResp.data.blob` otherwise. -/
def uploadImageFromFilePath (w : World) (bytes : List Nat) :
    Except Err BlobRef × List Event :=
  match w.uploadResult with
  | .error e => (.error e, [.uploadBlob bytes])
  | .ok dstResp =>
    if !dstResp.success then (.error .upload, [.uploadBlob bytes])
    else (.ok dstResp.blob, [.uploadBlob bytes])

/-- `post(md5)`: fetch the skin record and screenshot, read metadata,
resize 2× with the nearest kernel, log in, upload the resized buffer,
build facets and post data, submit, record the outcome, return the post
url. Each `match` mirrors an `await` that can reject. -/
def post (w : World) (md5 : String) : Except Err String × List Event :=
  match w.skin with
  | .error e => (.error e, [.fetchSkin md5])
  | .ok skin =>
  match w.screenshot with
  | .error e => (.error e, [.fetchSkin md5, .fetchScreenshot md5])
  | .ok screenshot =>
    let width := screenshot.width
    let height := screenshot.height
    let image := transformImage screenshot
    let name := skin.fileName
    let url := skin.museumUrl
    match w.loginResult with
    | .error e => (.error e, [.fetchSkin md5, .fetchScreenshot md5, .login])
    | .ok _ =>
    match uploadImageFromFilePath w image.pixels with
    | (.error e, t) =>
        (.error e, [.fetchSkin md5, .fetchScreenshot md5, .login] ++ t)
    | (.ok blob, t) =>
      let facets : List Facet :=
        [{ type := "app.bsky.richtext.facet"
           index := { byteStart := 0, byteEnd := utf16Length name }
           features := [{ type := "app.bsky.richtext.facet#link", uri := url }] }]
      let postData :=
        buildPost (name ++ " via the Winamp Skin Museum") facets
          (buildImageEmbed blob (width * 2) (height * 2)) w.now
      match w.submitResult with
      | .error e =>
          (.error e, [.fetchSkin md5, .fetchScreenshot md5, .login] ++ t
            ++ [.submitPost postData])
      | .ok postResp =>
        match w.recordResult with
        | .error e =>
            (.error e, [.fetchSkin md5, .fetchScreenshot md5, .login] ++ t
              ++ [.submitPost postData,
                  .markPublished md5 postResp.cid postResp.uri])
        | .ok _ =>
            (.ok postResp.uri, [.fetchSkin md5, .fetchScreenshot md5, .login] ++ t
              ++ [.submitPost postData,
                  .markPublished md5 postResp.cid postResp.uri])

/-- `postToBluesky(discordClient, md5)`: when `md5` is null ask the store
for a candidate; when none exists log `"No skins to post to Bluesky"` and
return. Otherwise run `post`, then fetch the chat channel and send the url. -/
def postToBluesky (w : World) (md5Arg : Option String) :
    Except Err Unit × List Event :=
  match (match md5Arg with
         | some m => (some m, ([] : List Event))
         | none => (w.pickResult, [Event.pick])) with
  | (none, t) => (.ok (), t ++ [.consoleError "No skins to post to Bluesky"])
  | (some md5, t) =>
    match post w md5 with
    | (.error e, t2) => (.error e, t ++ t2)
    | (.ok url, t2) =>
      let t3 := t ++ t2 ++ [Event.consoleLog "Going to post to discord"]
      match w.channelResult with
      | .error e => (.error e, t3 ++ [Event.fetchChannel])
      | .ok _ =>
        match w.sendResult with
        | .error e => (.error e, t3 ++ [Event.fetchChannel, Event.sendDiscord url])
        | .ok _ =>
            (.ok (), t3 ++ [Event.fetchChannel, Event.sendDiscord url,
              Event.consoleLog "Posted to discord"])

/-- The five network stages whose ordering the spec fixes. -/
inductive Stage where
  | login
  | upload
  | submit
  | record
  | notify
deriving DecidableEq, Repr

/-- The stage, if any, that an effect belongs to. -/
def stageOf : Event → Option Stage
  | .login => some .login
  | .uploadBlob _ => some .upload
  | .submitPost _ => some .submit
  | .markPublished _ _ _ => some .record
  | .sendDiscord _ => some .notify
  | _ => none

/-- The stage events of a trace, in order. -/
def stageTrace (t : List Event) : List Stage :=
  t.filterMap stageOf

/-- The order the spec requires of the five network stages. -/
def pipelineOrder : List Stage :=
  [.login, .upload, .submit, .record, .notify]

/-- Whether an `Except` result is a success. -/
def exceptOk {α : Type} : Except Err α → Bool
  | .ok _ => true
  | .error _ => false

/-- Whether the world's blob upload both resolves and reports success. -/
def uploadOk (w : World) : Bool :=
  match w.uploadResult with
  | .ok r => r.success
  | .error _ => false

/-- The post records submitted in a trace. -/
def submittedPosts (t : List Event) : List PostRecord :=
  t.filterMap fun ev =>
    match ev with
    | .submitPost pd => some pd
    | _ => none

/-- A world in which every external call succeeds. -/
def wOk : World :=
  { pickResult := some "m"
    skin := .ok { fileName := "Foo Skin", museumUrl := "https://museum/x",
                  screenshotFileName := "ss.png" }
    screenshot := .ok { width := 1, height := 1, pixels := [7] }
    loginResult := .ok ()
    uploadResult := .ok { success := true, blob := { ref := 1 } }
    submitResult := .ok { cid := "p1", uri := "https://platform/post/p1" }
    recordResult := .ok ()
    channelResult := .ok ()
    sendResult := .ok ()
    now := "2024-01-01T00:00:00.000Z" }

/-- Like `wOk` but the chat send rejects. -/
def wNotifyFail : World :=
  { wOk with sendResult := .error .notify }

/-- Like `wOk` but the upload envelope reports failure. -/
def wUploadFail : World :=
  { wOk with uploadResult := .ok { success := false, blob := { ref := 1 } } }

/-- Like `wOk` but the skin's display name contains a multi-byte character. -/
def wMultibyte : World :=
  { wOk with skin := .ok { fileName := "é", museumUrl := "https://museum/x",
                           screenshotFileName := "ss.png" } }

/-- Like `wOk` but the store has no unposted candidate. -/
def wEmpty : World :=
  { wOk with pickResult := none }

end Bluesky

namespace Hooks

/-- The module-level mutable state of `hooks.ts`: the reference count
`listenerRefCount`, plus how many copies of `globalMouseMoveHandler` are
currently registered on the document (`attachedCount`; the DOM deduplicates
identical listeners, and `removeEventListener` on an absent listener is a
no-op, which truncated `Nat` subtraction mirrors). -/
structure ListenerState where
  listenerRefCount : Int
  attachedCount : Nat
deriving DecidableEq, Repr

/-- Module load state: count zero, handler not registered. -/
def initialState : ListenerState :=
  { listenerRefCount := 0, attachedCount := 0 }

/-- `addGlobalMouseListener`: register the handler when the count is zero,
then increment the count. -/
def addGlobalMouseListener (s : ListenerState) : ListenerState :=
  if s.listenerRefCount = 0 then
    { listenerRefCount := s.listenerRefCount + 1
      attachedCount := s.attachedCount + 1 }
  else
    { s with listenerRefCount := s.listenerRefCount + 1 }

/-- `removeGlobalMouseListener`: decrement the count, then unregister the
handler when the decremented count is zero. -/
def removeGlobalMouseListener (s : ListenerState) : ListenerState :=
  if s.listenerRefCount - 1 = 0 then
    { listenerRefCount := s.listenerRefCount - 1
      attachedCount := s.attachedCount - 1 }
  else
    { s with listenerRefCount := s.listenerRefCount - 1 }

/-- A call to one of the two entry points. -/
inductive MouseOp where
  | add
  | remove
deriving DecidableEq, Repr

/-- Apply one call to the state. -/
def stepOp (s : ListenerState) (op : MouseOp) : ListenerState :=
  match op with
  | .add => addGlobalMouseListener s
  | .remove => removeGlobalMouseListener s

/-- Run a call sequence from the module-load state. -/
def runOps (l : List MouseOp) : ListenerState :=
  l.foldl stepOp initialState

/-- Number of `addGlobalMouseListener` calls in a sequence. -/
def addCount (l : List MouseOp) : Nat :=
  l.countP fun op => match op with | .add => true | .remove => false

/-- Number of `removeGlobalMouseListener` calls in a sequence. -/
def removeCount (l : List MouseOp) : Nat :=
  l.countP fun op => match op with | .add => false | .remove => true

/-- A call sequence in which removals never exceed prior additions: in every
initial segment the remove calls do not outnumber the add calls. -/
def balanced (l : List MouseOp) : Bool :=
  (List.range (l.length + 1)).all fun n =>
    removeCount (l.take n) ≤ addCount (l.take n)

end Hooks

end Webamp

/-! ## Theorems: the Bluesky pipeline -/

namespace Webamp.Bluesky

/-- C9: For every blob reference and every width/height pair, the constructed
image embed contains exactly one image entry, its alt text is the empty
string, and its `aspectRatio` equals exactly the given width/height pair. -/
theorem image_embed_single_entry (b : BlobRef) (wd ht : Nat) :
    jsGet (buildImageEmbed b wd ht) "images"
      = some (EmbedVal.images
          [{ image := b, aspectRatio := { width := wd, height := ht }, alt := "" }]) ∧
    jsGet (buildImageEmbed b wd ht) "$type"
      = some (EmbedVal.str "app.bsky.embed.images") :=
  ⟨rfl, rfl⟩

/-- C2 counterexample: at a concrete blob and dimensions, the composed
document's embed carries the image-embed type discriminator, not the
record-with-media one, and the images array sits directly in the embed:
spreading `imageEmbed` over the literal overwrote the
`app.bsky.embed.recordWithMedia` discriminator. -/
theorem embed_not_recordWithMedia_counterexample :
    jsGet (buildPost "t" [] (buildImageEmbed { ref := 1 } 2 3) "now").embed "$type"
      = some (EmbedVal.str "app.bsky.embed.images") ∧
    decide (jsGet (buildPost "t" [] (buildImageEmbed { ref := 1 } 2 3) "now").embed "$type"
      = some (EmbedVal.str "app.bsky.embed.recordWithMedia")) = false ∧
    (buildPost "t" [] (buildImageEmbed { ref := 1 } 2 3) "now").embed
      = buildImageEmbed { ref := 1 } 2 3 := by
  decide

/-- C2 amended: for every composed post, the embed equals the image embed
itself — the `$type` written first in the object literal is overwritten by
the spread of the image embed, so the embed's discriminator is
`app.bsky.embed.images` and the images array is at the top level, not nested
inside a record-with-media wrapper. -/
theorem embed_is_flat_image_embed (b : BlobRef) (wd ht : Nat) (text : String)
    (facets : List Facet) (now : String) :
    (buildPost text facets (buildImageEmbed b wd ht) now).embed
      = buildImageEmbed b wd ht ∧
    jsGet (buildPost text facets (buildImageEmbed b wd ht) now).embed "$type"
      = some (EmbedVal.str "app.bsky.embed.images") :=
  ⟨rfl, rfl⟩

/-- C1: at a skin whose display name is the multi-byte character `é`, the
composed facet's byte range is `[0, 1)` because the code uses the UTF-16
length `name.length`, while the UTF-8 encoding of the name is the two bytes
`[195, 169]`; the range therefore covers only the first byte of the name's
UTF-8 form, not the display-name substring, contradicting the byte-offset
contract the facet fields name. -/
theorem facet_byteEnd_utf16_bug :
    (submittedPosts (post wMultibyte "m").2).map
        (fun pd => pd.facets.map fun f => (f.index.byteStart, f.index.byteEnd))
      = [[(0, 1)]] ∧
    utf16Length "é" = 1 ∧
    utf8Bytes "é" = [195, 169] ∧
    (submittedPosts (post wMultibyte "m").2).map PostRecord.text
      = ["é via the Winamp Skin Museum"] ∧
    (utf8Bytes "é via the Winamp Skin Museum").take 1 = [195] := by
  decide

/-- C3: if the explicit key is null and the store's pick returns null, the
pipeline returns successfully having issued only the pick and the console
notice — no upload, no submission, no store write, no chat send. -/
theorem empty_selection_terminates_cleanly (w : World)
    (hp : w.pickResult = none) :
    postToBluesky w none
      = (.ok (), [Event.pick, Event.consoleError "No skins to post to Bluesky"]) := by
  simp [postToBluesky, hp]

/-- C3 witness. -/
theorem empty_selection_terminates_cleanly_witness :
    postToBluesky wEmpty none
      = (.ok (), [Event.pick, Event.consoleError "No skins to post to Bluesky"]) :=
  empty_selection_terminates_cleanly wEmpty rfl

/-- C4: when the blob-upload envelope resolves with its success flag unset,
the run halts with the upload error and its whole trace stops at the upload
call — no post submission, no store write, no chat notification — and the
upload helper itself returns the upload error rather than a blob reference
for any payload. -/
theorem upload_failure_halts_pipeline (w : World) (m : String) (s : Skin)
    (img : RawImage) (r : UploadResp) (bytes : List Nat)
    (h1 : w.skin = .ok s) (h2 : w.screenshot = .ok img)
    (h3 : w.loginResult = .ok ()) (h4 : w.uploadResult = .ok r)
    (h5 : r.success = false) :
    postToBluesky w (some m)
      = (.error .upload, [.fetchSkin m, .fetchScreenshot m, .login,
          .uploadBlob (transformImage img).pixels]) ∧
    (uploadImageFromFilePath w bytes).1 = .error .upload := by
  constructor
  · simp [postToBluesky, post, uploadImageFromFilePath, h1, h2, h3, h4, h5]
  · simp [uploadImageFromFilePath, h4, h5]

/-- C4 witness. -/
theorem upload_failure_halts_pipeline_witness :
    postToBluesky wUploadFail (some "m")
      = (.error .upload, [.fetchSkin "m", .fetchScreenshot "m", .login,
          .uploadBlob (transformImage { width := 1, height := 1, pixels := [7] }).pixels]) ∧
    (uploadImageFromFilePath wUploadFail [7]).1 = .error .upload :=
  upload_failure_halts_pipeline wUploadFail "m"
    { fileName := "Foo Skin", museumUrl := "https://museum/x",
      screenshotFileName := "ss.png" }
    { width := 1, height := 1, pixels := [7] }
    { success := false, blob := { ref := 1 } }
    [7] rfl rfl rfl rfl rfl

end Webamp.Bluesky

namespace Webamp.Bluesky

/-- C5: the media transform applies the nearest-neighbor resampler at
exactly doubled target dimensions, so its output dimensions (and pixel
count) are exactly 2× the input's, and it is deterministic: equal inputs
yield identical output buffers. -/
theorem transform_doubles_dimensions (img img' : RawImage) (h : img = img') :
    transformImage img = nearestResize img (img.width * 2) (img.height * 2) ∧
    (transformImage img).width = img.width * 2 ∧
    (transformImage img).height = img.height * 2 ∧
    (transformImage img).pixels.length = (img.height * 2) * (img.width * 2) ∧
    transformImage img = transformImage img' := by
  subst h
  refine ⟨rfl, rfl, rfl, ?_, rfl⟩
  simp [transformImage, nearestResize]

/-- C5 witness. -/
theorem transform_doubles_dimensions_witness :
    transformImage { width := 1, height := 1, pixels := [7] }
      = nearestResize { width := 1, height := 1, pixels := [7] } (1 * 2) (1 * 2) ∧
    (transformImage { width := 1, height := 1, pixels := [7] }).width = 1 * 2 ∧
    (transformImage { width := 1, height := 1, pixels := [7] }).height = 1 * 2 ∧
    (transformImage { width := 1, height := 1, pixels := [7] }).pixels.length
      = (1 * 2) * (1 * 2) ∧
    transformImage { width := 1, height := 1, pixels := [7] }
      = transformImage { width := 1, height := 1, pixels := [7] } :=
  transform_doubles_dimensions { width := 1, height := 1, pixels := [7] }
    { width := 1, height := 1, pixels := [7] } rfl

/-- C6: whenever the pipeline reaches composition (skin, screenshot, login
and upload all succeed), exactly one post is submitted; its text is
`"<name> via the Winamp Skin Museum"`, it carries exactly one facet whose
byte range starts at 0 and whose single feature is a link to the museum
url, and its embed's single image entry has the uploaded blob and an
aspect ratio equal to the transformed asset's final (doubled) dimensions. -/
theorem composed_post_contents (w : World) (m : String) (s : Skin)
    (img : RawImage) (r : UploadResp)
    (h1 : w.skin = .ok s) (h2 : w.screenshot = .ok img)
    (h3 : w.loginResult = .ok ()) (h4 : w.uploadResult = .ok r)
    (h5 : r.success = true) :
    (submittedPosts (post w m).2).map PostRecord.text
      = [s.fileName ++ " via the Winamp Skin Museum"] ∧
    (submittedPosts (post w m).2).map PostRecord.facets
      = [[{ type := "app.bsky.richtext.facet"
            index := { byteStart := 0, byteEnd := utf16Length s.fileName }
            features := [{ type := "app.bsky.richtext.facet#link",
                           uri := s.museumUrl }] }]] ∧
    (submittedPosts (post w m).2).map (fun pd => jsGet pd.embed "images")
      = [some (EmbedVal.images
          [{ image := r.blob
             aspectRatio := { width := (transformImage img).width
                              height := (transformImage img).height }
             alt := "" }])] := by
  rcases h6 : w.submitResult with e6 | r6 <;>
  rcases h7 : w.recordResult with e7 | u7 <;>
    simp [post, uploadImageFromFilePath, submittedPosts, buildPost,
      buildImageEmbed, jsSpread, jsSet, jsGet, transformImage, nearestResize,
      h1, h2, h3, h4, h5, h6, h7]

/-- C6 witness. -/
theorem composed_post_contents_witness :
    (submittedPosts (post wOk "m").2).map PostRecord.text
      = ["Foo Skin" ++ " via the Winamp Skin Museum"] ∧
    (submittedPosts (post wOk "m").2).map PostRecord.facets
      = [[{ type := "app.bsky.richtext.facet"
            index := { byteStart := 0, byteEnd := utf16Length "Foo Skin" }
            features := [{ type := "app.bsky.richtext.facet#link",
                           uri := "https://museum/x" }] }]] ∧
    (submittedPosts (post wOk "m").2).map (fun pd => jsGet pd.embed "images")
      = [some (EmbedVal.images
          [{ image := { ref := 1 }
             aspectRatio :=
               { width := (transformImage { width := 1, height := 1, pixels := [7] }).width
                 height := (transformImage { width := 1, height := 1, pixels := [7] }).height }
             alt := "" }])] :=
  composed_post_contents wOk "m"
    { fileName := "Foo Skin", museumUrl := "https://museum/x",
      screenshotFileName := "ss.png" }
    { width := 1, height := 1, pixels := [7] }
    { success := true, blob := { ref := 1 } }
    rfl rfl rfl rfl rfl

end Webamp.Bluesky

namespace Webamp.Bluesky

/-- When the store picks a candidate, a run with a null key behaves like a
run with that key, with the pick effect prepended. -/
theorem postToBluesky_none_trace (w : World) (m : String)
    (hp : w.pickResult = some m) :
    (postToBluesky w none).1 = (postToBluesky w (some m)).1 ∧
    (postToBluesky w none).2 = Event.pick :: (postToBluesky w (some m)).2 := by
  cases hpost : post w m with
  | mk r t2 =>
    cases r <;> rcases h7 : w.channelResult <;> rcases h8 : w.sendResult <;>
      simp [postToBluesky, hp, hpost, h7, h8]

/-- Stage ordering of a run with an explicit key: the network-stage events
form an initial segment of login → upload → submit → record → notify, and a
stage's event is absent whenever an earlier stage did not complete
successfully. -/
theorem pipeline_core (w : World) (m : String) :
    stageTrace (postToBluesky w (some m)).2 <+: pipelineOrder ∧
    (exceptOk w.loginResult = false →
      Stage.upload ∉ stageTrace (postToBluesky w (some m)).2) ∧
    (uploadOk w = false →
      Stage.submit ∉ stageTrace (postToBluesky w (some m)).2) ∧
    (exceptOk w.submitResult = false →
      Stage.record ∉ stageTrace (postToBluesky w (some m)).2) ∧
    (exceptOk w.recordResult = false →
      Stage.notify ∉ stageTrace (postToBluesky w (some m)).2) := by
  rcases h1 : w.skin with e1 | s
  · simp [postToBluesky, post, stageTrace, stageOf, h1]
  rcases h2 : w.screenshot with e2 | img
  · simp [postToBluesky, post, stageTrace, stageOf, h1, h2]
  rcases h3 : w.loginResult with e3 | u3
  · simp [postToBluesky, post, stageTrace, stageOf, exceptOk, h1, h2, h3]
    decide
  rcases h4 : w.uploadResult with e4 | r4
  · simp [postToBluesky, post, uploadImageFromFilePath, stageTrace, stageOf,
      exceptOk, uploadOk, h1, h2, h3, h4]
    decide
  obtain ⟨succ, blob⟩ := r4
  cases succ
  · simp [postToBluesky, post, uploadImageFromFilePath, stageTrace, stageOf,
      exceptOk, uploadOk, h1, h2, h3, h4]
    decide
  rcases h5 : w.submitResult with e5 | r5
  · simp [postToBluesky, post, uploadImageFromFilePath, stageTrace, stageOf,
      exceptOk, uploadOk, h1, h2, h3, h4, h5]
    decide
  rcases h6 : w.recordResult with e6 | u6
  · simp [postToBluesky, post, uploadImageFromFilePath, stageTrace, stageOf,
      exceptOk, uploadOk, h1, h2, h3, h4, h5, h6]
    decide
  rcases h7 : w.channelResult with e7 | u7
  · simp [postToBluesky, post, uploadImageFromFilePath, stageTrace, stageOf,
      exceptOk, uploadOk, h1, h2, h3, h4, h5, h6, h7]
    decide
  rcases h8 : w.sendResult with e8 | u8 <;>
    simp [postToBluesky, post, uploadImageFromFilePath, stageTrace, stageOf,
      exceptOk, uploadOk, h1, h2, h3, h4, h5, h6, h7, h8] <;>
    decide

/-- C7: in every run the network-stage events occur as an initial segment of
login → upload → submit → record → notify — login completes before the
upload is issued, the upload before the submission, the submission before
the store write, the store write before the chat send — and no later
stage's operation is issued when an earlier stage has not completed
successfully. -/
theorem pipeline_strictly_sequential (w : World) (md5Arg : Option String) :
    stageTrace (postToBluesky w md5Arg).2 <+: pipelineOrder ∧
    (exceptOk w.loginResult = false →
      Stage.upload ∉ stageTrace (postToBluesky w md5Arg).2) ∧
    (uploadOk w = false →
      Stage.submit ∉ stageTrace (postToBluesky w md5Arg).2) ∧
    (exceptOk w.submitResult = false →
      Stage.record ∉ stageTrace (postToBluesky w md5Arg).2) ∧
    (exceptOk w.recordResult = false →
      Stage.notify ∉ stageTrace (postToBluesky w md5Arg).2) := by
  rcases md5Arg with _ | m
  · rcases hp : w.pickResult with _ | m
    · simp [postToBluesky, hp, stageTrace, stageOf]
    · have h := (postToBluesky_none_trace w m hp).2
      rw [h]
      simpa [stageTrace, stageOf] using pipeline_core w m
  · exact pipeline_core w m

/-- C7 witness. -/
theorem pipeline_strictly_sequential_witness :
    stageTrace (postToBluesky wOk (some "m")).2 <+: pipelineOrder ∧
    (exceptOk wOk.loginResult = false →
      Stage.upload ∉ stageTrace (postToBluesky wOk (some "m")).2) ∧
    (uploadOk wOk = false →
      Stage.submit ∉ stageTrace (postToBluesky wOk (some "m")).2) ∧
    (exceptOk wOk.submitResult = false →
      Stage.record ∉ stageTrace (postToBluesky wOk (some "m")).2) ∧
    (exceptOk wOk.recordResult = false →
      Stage.notify ∉ stageTrace (postToBluesky wOk (some "m")).2) :=
  pipeline_strictly_sequential wOk (some "m")

end Webamp.Bluesky

namespace Webamp.Bluesky

/-- C8 counterexample: at a concrete world where everything up to and
including the store write succeeds and the chat send then rejects, the
whole run fails with the notification error — the failure is not caught,
no warning or log is emitted after the send (the trace ends at the send),
so the notification failure surfaces through the same failure channel as a
publish failure rather than as a distinct warning. The store write is in
the trace: the publish itself is not unwound. -/
theorem notify_failure_not_warning_counterexample :
    (postToBluesky wNotifyFail (some "m")).1 = Except.error Err.notify ∧
    Event.markPublished "m" "p1" "https://platform/post/p1"
      ∈ (postToBluesky wNotifyFail (some "m")).2 ∧
    decide (Event.consoleLog "Posted to discord"
      ∈ (postToBluesky wNotifyFail (some "m")).2) = false ∧
    (postToBluesky wNotifyFail (some "m")).2.getLast?
      = some (Event.sendDiscord "https://platform/post/p1") :=
  ⟨rfl, by decide, by decide, rfl⟩

/-- C8 amended: if the chat notification fails after a successful publish,
the record remains marked published — the store write has already happened
and nothing unwinds it — but the failure is not logged or surfaced as a
distinct warning: it propagates uncaught as the failure of the entire run,
whose trace ends at the failed send. -/
theorem notify_failure_preserves_publish (w : World) (m : String) (s : Skin)
    (img : RawImage) (r : UploadResp) (pr : PostResp) (e : Err)
    (h1 : w.skin = .ok s) (h2 : w.screenshot = .ok img)
    (h3 : w.loginResult = .ok ()) (h4 : w.uploadResult = .ok r)
    (h5 : r.success = true) (h6 : w.submitResult = .ok pr)
    (h7 : w.recordResult = .ok ()) (h8 : w.channelResult = .ok ())
    (h9 : w.sendResult = .error e) :
    (postToBluesky w (some m)).1 = .error e ∧
    Event.markPublished m pr.cid pr.uri ∈ (postToBluesky w (some m)).2 ∧
    (postToBluesky w (some m)).2.getLast?
      = some (Event.sendDiscord pr.uri) := by
  simp [postToBluesky, post, uploadImageFromFilePath,
    h1, h2, h3, h4, h5, h6, h7, h8, h9]

/-- C8 amended witness. -/
theorem notify_failure_preserves_publish_witness :
    (postToBluesky wNotifyFail (some "m")).1 = .error .notify ∧
    Event.markPublished "m" "p1" "https://platform/post/p1"
      ∈ (postToBluesky wNotifyFail (some "m")).2 ∧
    (postToBluesky wNotifyFail (some "m")).2.getLast?
      = some (Event.sendDiscord "https://platform/post/p1") :=
  notify_failure_preserves_publish wNotifyFail "m"
    { fileName := "Foo Skin", museumUrl := "https://museum/x",
      screenshotFileName := "ss.png" }
    { width := 1, height := 1, pixels := [7] }
    { success := true, blob := { ref := 1 } }
    { cid := "p1", uri := "https://platform/post/p1" }
    .notify rfl rfl rfl rfl rfl rfl rfl rfl rfl

end Webamp.Bluesky

/-! ## Theorems: the reference-counted global mouse listener -/

namespace Webamp.Hooks

/-- One `addGlobalMouseListener` call preserves the invariant that the
count is the nonnegative `k` and the handler is attached exactly when
`k` is positive. -/
theorem add_step (s : ListenerState) (k : Nat)
    (h1 : s.listenerRefCount = (k : Int))
    (h2 : s.attachedCount = if 0 < k then 1 else 0) :
    (addGlobalMouseListener s).listenerRefCount = ((k + 1 : Nat) : Int) ∧
    (addGlobalMouseListener s).attachedCount = (if 0 < k + 1 then 1 else 0) := by
  rcases Nat.eq_zero_or_pos k with hk | hk
  · subst hk
    have h0 : s.listenerRefCount = 0 := by simpa using h1
    simp [addGlobalMouseListener, h0, h2]
  · have h0 : ¬ s.listenerRefCount = 0 := by rw [h1]; exact_mod_cast hk.ne'
    simp only [addGlobalMouseListener, if_neg h0]
    constructor
    · show s.listenerRefCount + 1 = ((k + 1 : Nat) : Int)
      rw [h1]; push_cast; ring
    · show s.attachedCount = (if 0 < k + 1 then 1 else 0)
      rw [h2]
      simp [hk]

/-- One `removeGlobalMouseListener` call preserves the invariant, provided
at least one reference is held. -/
theorem remove_step (s : ListenerState) (k : Nat) (hk : 1 ≤ k)
    (h1 : s.listenerRefCount = (k : Int))
    (h2 : s.attachedCount = if 0 < k then 1 else 0) :
    (removeGlobalMouseListener s).listenerRefCount = ((k - 1 : Nat) : Int) ∧
    (removeGlobalMouseListener s).attachedCount = (if 0 < k - 1 then 1 else 0) := by
  rcases Nat.lt_or_ge k 2 with hk2 | hk2
  · have hk1 : k = 1 := by omega
    subst hk1
    have h0 : s.listenerRefCount - 1 = 0 := by rw [h1]; ring
    simp [removeGlobalMouseListener, h0, h2]
  · have h0 : ¬ s.listenerRefCount - 1 = 0 := by rw [h1]; omega
    simp only [removeGlobalMouseListener, if_neg h0]
    constructor
    · show s.listenerRefCount - 1 = ((k - 1 : Nat) : Int)
      rw [h1]; omega
    · show s.attachedCount = (if 0 < k - 1 then 1 else 0)
      rw [h2]
      have ha : 0 < k := by omega
      have hb : 0 < k - 1 := by omega
      simp [ha, hb]

/-- Running a call sequence from any state satisfying the invariant at
count `k` lands in the invariant at count `k + additions - removals`,
provided removals never exceed `k` plus prior additions. -/
theorem listener_go (l : List MouseOp) :
    ∀ (k : Nat) (s : ListenerState),
      s.listenerRefCount = (k : Int) →
      s.attachedCount = (if 0 < k then 1 else 0) →
      (∀ n : Nat, removeCount (l.take n) ≤ k + addCount (l.take n)) →
      (l.foldl stepOp s).listenerRefCount
        = ((k + addCount l - removeCount l : Nat) : Int) ∧
      (l.foldl stepOp s).attachedCount
        = (if 0 < k + addCount l - removeCount l then 1 else 0) := by
  induction l with
  | nil =>
    intro k s h1 h2 _
    simpa [addCount, removeCount] using ⟨h1, h2⟩
  | cons op rest ih =>
    intro k s h1 h2 hb
    cases op with
    | add =>
      have hs' := add_step s k h1 h2
      have hb' : ∀ n : Nat,
          removeCount (rest.take n) ≤ (k + 1) + addCount (rest.take n) := by
        intro n
        have := hb (n + 1)
        simp [List.take_succ_cons, removeCount, addCount, List.countP_cons] at this ⊢
        omega
      have hrec := ih (k + 1) (addGlobalMouseListener s) hs'.1 hs'.2 hb'
      have harith : k + 1 + addCount rest - removeCount rest
          = k + addCount (MouseOp.add :: rest) - removeCount (MouseOp.add :: rest) := by
        simp [addCount, removeCount, List.countP_cons]
        omega
      simpa [List.foldl_cons, stepOp, harith] using hrec
    | remove =>
      have hk1 : 1 ≤ k := by
        have := hb 1
        simpa [removeCount, addCount, List.countP_cons] using this
      have hs' := remove_step s k hk1 h1 h2
      have hb' : ∀ n : Nat,
          removeCount (rest.take n) ≤ (k - 1) + addCount (rest.take n) := by
        intro n
        have := hb (n + 1)
        simp [List.take_succ_cons, removeCount, addCount, List.countP_cons] at this ⊢
        omega
      have hrec := ih (k - 1) (removeGlobalMouseListener s) hs'.1 hs'.2 hb'
      have harith : k - 1 + addCount rest - removeCount rest
          = k + addCount (MouseOp.remove :: rest) - removeCount (MouseOp.remove :: rest) := by
        simp [addCount, removeCount, List.countP_cons]
        omega
      simpa [List.foldl_cons, stepOp, harith] using hrec

/-- C10: from the module-load state (count zero, handler not registered),
after any call sequence whose removals never exceed prior additions, the
reference count equals additions minus removals, the document handler is
registered exactly when the count is positive, and it is attached at most
once — never duplicated. -/
theorem listener_refcount_invariant (l : List MouseOp)
    (hb : balanced l = true) :
    (runOps l).listenerRefCount
      = (addCount l : Int) - (removeCount l : Int) ∧
    ((runOps l).attachedCount
      = if 0 < (runOps l).listenerRefCount then 1 else 0) ∧
    (runOps l).attachedCount ≤ 1 := by
  have hball : ∀ n : Nat, removeCount (l.take n) ≤ addCount (l.take n) := by
    intro n
    rcases Nat.lt_or_ge n (l.length + 1) with hn | hn
    · have := (List.all_eq_true.mp hb) n (List.mem_range.mpr hn)
      simpa using this
    · have hlen : l.length ≤ n := by omega
      have htake : l.take n = l := List.take_of_length_le hlen
      have := (List.all_eq_true.mp hb) l.length (List.mem_range.mpr (by omega))
      rw [htake]
      simpa [List.take_length] using this
  have h := listener_go l 0 initialState (by simp [initialState])
    (by simp [initialState]) (by simpa using hball)
  have hle : removeCount l ≤ addCount l := by
    have := hball l.length
    simpa [List.take_length] using this
  refine ⟨?_, ?_, ?_⟩
  · simp only [runOps]
    rw [h.1]
    omega
  · simp only [runOps]
    rw [h.2]
    simp [h.1, Nat.cast_pos]
  · simp only [runOps]
    rw [h.2]
    split <;> simp

/-- C10 witness. -/
theorem listener_refcount_invariant_witness :
    balanced [MouseOp.add, MouseOp.add, MouseOp.remove] = true ∧
    ((runOps [MouseOp.add, MouseOp.add, MouseOp.remove]).listenerRefCount
        = (addCount [MouseOp.add, MouseOp.add, MouseOp.remove] : Int)
          - (removeCount [MouseOp.add, MouseOp.add, MouseOp.remove] : Int) ∧
      ((runOps [MouseOp.add, MouseOp.add, MouseOp.remove]).attachedCount
        = if 0 < (runOps [MouseOp.add, MouseOp.add, MouseOp.remove]).listenerRefCount
          then 1 else 0) ∧
      (runOps [MouseOp.add, MouseOp.add, MouseOp.remove]).attachedCount ≤ 1) :=
  ⟨by decide,
   listener_refcount_invariant [MouseOp.add, MouseOp.add, MouseOp.remove] (by decide)⟩

end Webamp.Hooks
